import Mathlib

/-!
Verification of the spec of `nix-pre-build-hook.py` against a shallow
embedding of the script.  The embedding models:

* the feature classifier (`check_derivation_features` plus the surrounding
  `__main__` logic that decides between structured inspection and the
  `wants-cuda` marker fallback),
* the path gatherer (`gather_potential_cuda_paths` with its three steps),
* the store-root derivation (`get_store_path_parent`),
* the final filtering, sorting and directive emission of `__main__`.

The host filesystem is modelled as a record of probe functions (`FS`);
the external `nix show-derivation` collaborator is modelled by the
`Inspection` outcome type; parsed JSON values are modelled by `Json`.
All definitions are executable.
-/

/-- Model of a parsed JSON value, as produced by Python's `json.loads`.
Objects keep their fields as an ordered association list, matching the
insertion order of a Python dict built from JSON text. -/
inductive Json where
  | null : Json
  | bool (b : Bool) : Json
  | num (n : Int) : Json
  | str (s : String) : Json
  | arr (elems : List Json) : Json
  | obj (fields : List (String × Json)) : Json
  deriving BEq, Repr

/-- Python `dict` lookup on the fields of a JSON object (keys are distinct
after `json.loads`, so first match is the dict entry). -/
def lookupField : List (String × Json) → String → Option Json
  | [], _ => none
  | (k, v) :: rest, key => if k = key then some v else lookupField rest key

/-- Python `x.get(key, default)`: succeeds only when `x` is a dict
(`Json.obj`); on any other value the attribute access raises, which the
caller's generic `except` turns into `none` here. -/
def getAttr (v : Json) (key : String) (dflt : Json) : Option Json :=
  match v with
  | Json.obj fields => some ((lookupField fields key).getD dflt)
  | _ => none

/-- Boolean substring test on character lists: true iff `needle` occurs
contiguously inside the second list. -/
def containsSub (needle : List Char) : List Char → Bool
  | [] => needle.isEmpty
  | c :: cs => needle.isPrefixOf (c :: cs) || containsSub needle cs

/-- Python's `needle in hay` for strings (substring containment). -/
def strIn (needle hay : String) : Bool := containsSub needle.toList hay.toList

/-- Python's `"cuda" in features` where `features` is a JSON value:
membership for a list, substring for a string, key membership for a dict;
any other type raises `TypeError`, modelled as `none` (the caller's
generic `except` then yields `False`). -/
def pyInJson (needle : String) : Json → Option Bool
  | Json.arr elems => some (elems.any (fun e => e == Json.str needle))
  | Json.str s => some (strIn needle s)
  | Json.obj fields => some (fields.any (fun kv => kv.1 == needle))
  | _ => none

/-- Outcome of invoking `nix show-derivation <drv>` (source lines 193-227):
the command may be missing (`FileNotFoundError`), exit non-zero
(`CalledProcessError`), print something that is not JSON
(`json.JSONDecodeError`), or succeed with a parsed JSON value. -/
inductive Inspection where
  | unavailable : Inspection
  | exitNonZero : Inspection
  | badJson : Inspection
  | ok (v : Json) : Inspection

/-- `CUDA_MARKER` from source line 10. -/
def CUDA_MARKER : String := "wants-cuda"

/-- Shallow embedding of `check_derivation_features` (source lines 190-230).
Every error path of the Python function (`FileNotFoundError`, non-zero
exit, JSON decode error, empty mapping, any unexpected exception) executes
`return False`.  On success it takes the first entry of the parsed
mapping, reads `env` (default `{}`), reads `requiredSystemFeatures`
(default `[]`), and tests `"cuda" in features`. -/
def check_derivation_features (insp : Inspection) : Bool :=
  match insp with
  | Inspection.ok (Json.obj ((_, info) :: _)) =>
    match getAttr info "env" (Json.obj []) with
    | none => false
    | some env =>
      match getAttr env "requiredSystemFeatures" (Json.arr []) with
      | none => false
      | some features =>
        match pyInJson "cuda" features with
        | none => false
        | some b => b
  | _ => false

/-- Shallow embedding of the classification logic of `__main__`
(source lines 238-270).  When the derivation path is a readable regular
file, `check_derivation_features` is called and its boolean is trusted
(`check_result is not None` is always true for a boolean, so
`checked_features_successfully` is set unconditionally); in every other
case the script falls back to testing whether `CUDA_MARKER` occurs in the
derivation path string. -/
def classify (isFile readable : Bool) (insp : Inspection) (drvPathStr : String) : Bool :=
  if isFile && readable then check_derivation_features insp
  else strIn CUDA_MARKER drvPathStr

mutual
/-- Canonical JSON serialization of a `Json` value (the external JSON
grammar): a string produced by `renderJson j` is exactly a JSON text that
parses back to `j`.  Used to state claims whose premise is "a string that
parses as a JSON object ...". -/
def renderJson : Json → String
  | Json.null => "null"
  | Json.bool b => if b then "true" else "false"
  | Json.num n => toString n
  | Json.str s => "\"" ++ s ++ "\""
  | Json.arr elems => "[" ++ renderArr elems ++ "]"
  | Json.obj fields => "\x7b" ++ renderObj fields ++ "\x7d"

/-- Comma-separated rendering of a JSON array body. -/
def renderArr : List Json → String
  | [] => ""
  | [x] => renderJson x
  | x :: y :: rest => renderJson x ++ "," ++ renderArr (y :: rest)

/-- Comma-separated rendering of a JSON object body. -/
def renderObj : List (String × Json) → String
  | [] => ""
  | [(k, v)] => "\"" ++ k ++ "\":" ++ renderJson v
  | (k, v) :: kv :: rest => "\"" ++ k ++ "\":" ++ renderJson v ++ "," ++ renderObj (kv :: rest)
end

/-- Model of the host filesystem at one instant, as the set of probes the
script performs.  `isDir`, `fsExists` and `isSymlink` model
`Path.is_dir()`, `Path.exists()` and `Path.is_symlink()` (total, never
raising; `exists` follows symlinks, so it is false on a broken link).
`resolve` models `Path.resolve(strict=True)`: `none` when resolution
raises (broken chain / missing target).  `devEntries` and `libEntries`
are the directory listings that `DEV_DIR.glob` and
`(OPENGL_DIR/"lib").glob` enumerate, as path strings relative to those
roots, in on-disk (arbitrary) order. -/
structure FS where
  isDir : String → Bool
  fsExists : String → Bool
  isSymlink : String → Bool
  resolve : String → Option String
  devEntries : List String
  libEntries : List String

/-- `DEV_DIR` from source line 12. -/
def DEV_DIR : String := "/dev"

/-- `OPENGL_DIR` from source line 11. -/
def OPENGL_DIR : String := "/run/opengl-driver"

/-- Shallow embedding of `safe_resolve` (source lines 35-51): returns
`none` when the path is neither a symlink nor an existing file, and
otherwise attempts strict resolution, catching any error as `none`. -/
def safe_resolve (fs : FS) (p : String) : Option String :=
  if !fs.isSymlink p && !fs.fsExists p then none
  else fs.resolve p

/-- Character list of the `store_prefix` constant `"/nix/store/"`
(source line 55). -/
def storePrefixChars : List Char := "/nix/store/".toList

/-- Model of Python `str.split(sep)` for a one-character separator:
splits at every occurrence of the separator, keeping empty pieces, and
always returns at least one piece. -/
def splitChar (c : Char) : List Char → List (List Char)
  | [] => [[]]
  | x :: xs =>
    if x = c then [] :: splitChar c xs
    else
      match splitChar c xs with
      | [] => [[x]]
      | s :: rest => (x :: s) :: rest

/-- Shallow embedding of `get_store_path_parent` (source lines 53-63):
if the path starts with `/nix/store/`, split the remainder on `/` and,
when the first segment contains a `-` (the `hash-name` convention),
return the prefix joined with that segment; otherwise `None`. -/
def get_store_path_parent (p : String) : Option String :=
  if storePrefixChars.isPrefixOf p.toList then
    match splitChar '/' (p.toList.drop storePrefixChars.length) with
    | [] => none
    | first :: _ =>
      if first.contains '-' then some (String.mk (storePrefixChars ++ first))
      else none
  else none

/-- Glob match for one path segment: the fixed patterns of the script use
`*` only at the end of a segment, so a segment pattern is either a prefix
pattern (`"nvidia*"`) or an exact name. -/
def segMatchC (pat name : List Char) : Bool :=
  if pat.getLast? = some '*' then pat.dropLast.isPrefixOf name
  else pat == name

/-- Model of `Path.glob(pattern)` membership for the script's patterns:
the relative path matches when it has the same number of `/`-separated
segments as the pattern and each segment matches (a `*` does not cross a
`/`, per glob semantics). -/
def globMatch (pat name : String) : Bool :=
  let ps := splitChar '/' pat.toList
  let ns := splitChar '/' name.toList
  ps.length == ns.length && (ps.zip ns).all (fun q => segMatchC q.1 q.2)

/-- `dev_patterns` from source line 79. -/
def dev_patterns : List String := ["nvidia*", "dri/card*", "dri/renderD*", "nvhost*", "nvmap"]

/-- `lib_patterns` from source line 146. -/
def lib_patterns : List String :=
  ["libcuda*", "libnvidia*", "libnv*", "libEGL*", "libGLES*", "libGLX*", "libGL.*", "libvulkan*"]

/-- Entries of a listing matched by at least one pattern, in pattern-major
order, exactly as the nested `for pattern ... for p in glob(pattern)`
loops visit them. -/
def matchedEntries (pats : List String) (entries : List String) : List String :=
  pats.flatMap (fun pat => entries.filter (fun e => globMatch pat e))

/-- Contribution of one matched device entry (source lines 84-99): if it
exists or is a symlink, the path itself, plus its resolved target when
`safe_resolve` succeeds with a different path; otherwise nothing. -/
def devContrib (fs : FS) (e : String) : List String :=
  if fs.fsExists (DEV_DIR ++ "/" ++ e) || fs.isSymlink (DEV_DIR ++ "/" ++ e) then
    (DEV_DIR ++ "/" ++ e) ::
      (match safe_resolve fs (DEV_DIR ++ "/" ++ e) with
       | some r => if r = DEV_DIR ++ "/" ++ e then [] else [r]
       | none => [])
  else []

/-- Step 1 of the gatherer (source lines 76-104): device nodes under
`/dev`, guarded by `DEV_DIR.is_dir()`. -/
def step1_list (fs : FS) (pats : List String) : List String :=
  if fs.isDir DEV_DIR then (matchedEntries pats fs.devEntries).flatMap (devContrib fs) else []

/-- The `driver_path_added` flag (source lines 108-113): true iff
`OPENGL_DIR` exists or is a symlink. -/
def driver_path_added (fs : FS) : Bool :=
  fs.fsExists OPENGL_DIR || fs.isSymlink OPENGL_DIR

/-- Direct bind paths from step 2 (source lines 109-134): the driver root
itself, plus — when it is a symlink whose resolved target is not a store
path — the resolved target. -/
def step2_binds (fs : FS) : List String :=
  if driver_path_added fs then
    OPENGL_DIR ::
      (if fs.isSymlink OPENGL_DIR then
        match safe_resolve fs OPENGL_DIR with
        | some t =>
          match get_store_path_parent t with
          | some _ => []
          | none => [t]
        | none => []
      else [])
  else []

/-- Store roots recorded by step 2 (source lines 116-125): the store
parent of the driver root's resolved target, when the root is a symlink
and the target maps to a store path. -/
def step2_stores (fs : FS) : List String :=
  if fs.isSymlink OPENGL_DIR then
    match safe_resolve fs OPENGL_DIR with
    | some t => (get_store_path_parent t).toList
    | none => []
  else []

/-- Contribution of one matched library entry (source lines 148-166): only
symlinks count; the symlink is resolved, and when the target lies under
`/nix/store/` its store parent is recorded. -/
def libContrib (fs : FS) (e : String) : List String :=
  if fs.isSymlink (OPENGL_DIR ++ "/lib/" ++ e) then
    match safe_resolve fs (OPENGL_DIR ++ "/lib/" ++ e) with
    | some t =>
      if storePrefixChars.isPrefixOf t.toList then (get_store_path_parent t).toList
      else []
    | none => []
  else []

/-- Step 3 of the gatherer (source lines 140-168): scan
`OPENGL_DIR/lib` for library symlinks, guarded by `driver_path_added`
and the directory check. -/
def step3_stores (fs : FS) (pats : List String) : List String :=
  if driver_path_added fs && fs.isDir (OPENGL_DIR ++ "/lib") then
    (matchedEntries pats fs.libEntries).flatMap (libContrib fs)
  else []

/-- Shallow embedding of `gather_potential_cuda_paths` (source lines
66-186), as the list of all paths inserted into the two Python sets
`all_paths_to_bind` and `required_store_paths` (their union is returned,
source lines 181-186).  Set semantics are applied by the caller via
`List.dedup`. -/
def gather_potential_cuda_paths (fs : FS) : List String :=
  step1_list fs dev_patterns ++ step2_binds fs ++ step2_stores fs ++
    step3_stores fs lib_patterns

/-- The final bind list of `__main__` (source lines 277-289):
`sorted(list(paths_to_bind), key=as_posix)` followed by the
existence-or-symlink filter inside the loop.  `dedup` models the Python
set, `insertionSort` models `sorted`. -/
def valid_binds (fs : FS) : List String :=
  ((gather_potential_cuda_paths fs).dedup.insertionSort (· ≤ ·)).filter
    (fun p => fs.fsExists p || fs.isSymlink p)

/-- The observable behaviour of one run of `__main__` (source lines
272-314) given the classification result: the bytes written to standard
output and the process exit status.  Every branch of the script reaches
either `sys.exit(0)` or the end of the module, so the status is 0 in each
branch. -/
def hook_run (cls : Bool) (fs : FS) : String × Nat :=
  if cls then
    if (valid_binds fs).isEmpty then ("", 0)
    else
      ("extra-sandbox-paths\n" ++
         String.join ((valid_binds fs).map (fun p => p ++ "=" ++ p ++ "\n")) ++ "\n",
       0)
  else ("", 0)

/-- Filesystem with nothing present at all. -/
def fsEmpty : FS where
  isDir := fun _ => false
  fsExists := fun _ => false
  isSymlink := fun _ => false
  resolve := fun _ => none
  devEntries := []
  libEntries := []

/-- Filesystem of the spec's end-to-end scenario: `/dev` is a directory
containing the regular file `nvidia0` (not a symlink); no driver root. -/
def fsEx : FS where
  isDir := fun s => s == "/dev"
  fsExists := fun s => s == "/dev/nvidia0"
  isSymlink := fun _ => false
  resolve := fun s => if s == "/dev/nvidia0" then some "/dev/nvidia0" else none
  devEntries := ["nvidia0"]
  libEntries := []


/-- Claim C1: the spec states that when the descriptor is an existing,
readable regular file but the structured inspection is unavailable, exits
non-zero, emits invalid JSON, or returns an empty mapping, the layer is
inconclusive and classification falls back to the marker-substring
heuristic.  The code does not: `check_derivation_features` returns
`False` on every one of those error paths, and `__main__` (line 250)
tests `check_result is not None` — always true for a boolean — so
`checked_features_successfully` is set and the fallback is skipped.  This
theorem evaluates the code at a failing input: a readable descriptor file
whose identifier contains the marker classifies `false` under each of the
four inspection-failure modes, while the marker heuristic (taken whenever
the file is not readable, last conjunct) yields `true`. -/
theorem C1_inspection_failure_conclusive_false :
    classify true true Inspection.unavailable "/build/wants-cuda-app.drv" = false ∧
    classify true true Inspection.exitNonZero "/build/wants-cuda-app.drv" = false ∧
    classify true true Inspection.badJson "/build/wants-cuda-app.drv" = false ∧
    classify true true (Inspection.ok (Json.obj [])) "/build/wants-cuda-app.drv" = false ∧
    strIn CUDA_MARKER "/build/wants-cuda-app.drv" = true ∧
    classify false true Inspection.unavailable "/build/wants-cuda-app.drv" = true :=
  ⟨rfl, rfl, rfl, rfl, by decide, by decide⟩

/-- Claim C2 (counterexample): a descriptor whose env has no top-level
`requiredSystemFeatures` but stores, under `"__json"`, the serialization
of the JSON object with `requiredSystemFeatures = ["cuda"]`, is claimed
to classify `true`; the code returns `false`, because
`check_derivation_features` never reads a `"__json"` key (source lines
201-215 contain no such lookup).  The first conjunct shows the blob is
exactly the serialization of that object, the second that the env lacks a
top-level `requiredSystemFeatures`, the third the classifier's `false`. -/
theorem C2_nested_json_ignored_counterexample :
    renderJson (Json.obj [("requiredSystemFeatures", Json.arr [Json.str "cuda"])]) =
      "\x7b\"requiredSystemFeatures\":[\"cuda\"]\x7d" ∧
    lookupField
      [("__json",
        Json.str (renderJson (Json.obj [("requiredSystemFeatures", Json.arr [Json.str "cuda"])])))]
      "requiredSystemFeatures" = none ∧
    check_derivation_features (Inspection.ok (Json.obj [("/nix/store/abc-demo.drv",
      Json.obj [("env", Json.obj [("__json",
        Json.str (renderJson
          (Json.obj [("requiredSystemFeatures", Json.arr [Json.str "cuda"])])))])])]))
      = false := by
  refine ⟨?_, rfl, rfl⟩
  simp [renderJson, renderArr, renderObj]

/-- Claim C2 (amended): the classifier ignores any `"__json"` key.  When
the first entry's env contains a `"__json"` blob but its fields have no
top-level `requiredSystemFeatures`, the result is `false` regardless of
the blob's contents. -/
theorem C2_nested_json_ignored_amended (k b : String) (pre post rest : List (String × Json))
    (h : lookupField (pre ++ ("__json", Json.str b) :: post) "requiredSystemFeatures" = none) :
    check_derivation_features (Inspection.ok (Json.obj
      ((k, Json.obj [("env", Json.obj (pre ++ ("__json", Json.str b) :: post))]) :: rest)))
      = false := by
  simp [check_derivation_features, getAttr, lookupField, h, pyInJson]

/-- Witness for the amended C2 at a concrete descriptor. -/
theorem C2_nested_json_ignored_amended_witness :
    check_derivation_features (Inspection.ok (Json.obj
      [("/nix/store/abc-demo.drv", Json.obj [("env", Json.obj
        [("__json", Json.str "\x7b\"requiredSystemFeatures\":[\"cuda\"]\x7d")])])]))
      = false :=
  C2_nested_json_ignored_amended "/nix/store/abc-demo.drv"
    "\x7b\"requiredSystemFeatures\":[\"cuda\"]\x7d" [] [] [] rfl

/-- Claim C8: with no readable descriptor file, classification is exactly
the marker-substring heuristic: a non-existent descriptor whose
identifier contains the marker classifies `true`; with no readable
descriptor and no marker substring it classifies `false`. -/
theorem C8_fallback_heuristic (isFile readable : Bool) (insp : Inspection) (s : String) :
    (isFile = false → strIn CUDA_MARKER s = true → classify isFile readable insp s = true) ∧
    ((isFile && readable) = false → strIn CUDA_MARKER s = false →
      classify isFile readable insp s = false) := by
  constructor
  · intro h1 h2
    subst h1
    simp [classify, h2]
  · intro h1 h2
    simp [classify, h1, h2]

/-- Witness for C8 at concrete descriptor identifiers. -/
theorem C8_fallback_heuristic_witness :
    classify false true Inspection.unavailable "/nix/store/deleted-wants-cuda.drv" = true ∧
    classify false false Inspection.unavailable "/nix/store/plain-app.drv" = false :=
  ⟨(C8_fallback_heuristic false true Inspection.unavailable
      "/nix/store/deleted-wants-cuda.drv").1 rfl (by decide),
   (C8_fallback_heuristic false false Inspection.unavailable
      "/nix/store/plain-app.drv").2 rfl (by decide)⟩

/-- Claim C10: the classifier inspects only the first entry of the parsed
mapping (`list(drv_data.keys())[0]`, source line 207): for one fixed
first entry, the result is the same whatever the remaining entries are,
so features declared by other entries never affect classification. -/
theorem C10_only_first_entry_matters (k : String) (info : Json)
    (rest₁ rest₂ : List (String × Json)) :
    check_derivation_features (Inspection.ok (Json.obj ((k, info) :: rest₁))) =
      check_derivation_features (Inspection.ok (Json.obj ((k, info) :: rest₂))) := rfl

/-- Appending anything to a list keeps the list a prefix of the result. -/
lemma isPrefixOf_append_self (a b : List Char) : a.isPrefixOf (a ++ b) = true := by
  simp [List.isPrefixOf_iff_prefix]

/-- Splitting at a separator that first occurs right after `seg` peels off
`seg` as the first piece. -/
lemma splitChar_sep_append (c : Char) (seg rest : List Char) (h : seg.contains c = false) :
    splitChar c (seg ++ c :: rest) = seg :: splitChar c rest := by
  induction seg with
  | nil => simp [splitChar]
  | cons x xs ih =>
    rw [List.contains_cons, Bool.or_eq_false_iff] at h
    have hne : ¬ x = c := by
      intro hxc
      rw [hxc] at h
      simp at h
    rw [List.cons_append]
    rw [splitChar, if_neg hne, ih h.2]

/-- Claim C3: store-root derivation is pure string parsing: for a path of
the form `{store prefix}{seg}/{rest}` whose first segment `seg` contains
no `/` and matches the hash-name convention (contains `-`), the derived
store root is exactly the prefix joined with `seg`, verbatim; and a path
not starting with the store prefix derives no store root. -/
theorem C3_store_root_derivation (p seg rest q : String)
    (hp : p = "/nix/store/" ++ seg ++ "/" ++ rest)
    (hs : seg.toList.contains '/' = false)
    (hd : seg.toList.contains '-' = true)
    (hq : storePrefixChars.isPrefixOf q.toList = false) :
    get_store_path_parent p = some ("/nix/store/" ++ seg) ∧
    get_store_path_parent q = none := by
  constructor
  · subst hp
    have hslash : ("/" : String).data = ['/'] := rfl
    have hl : ("/nix/store/" ++ seg ++ "/" ++ rest).toList
        = storePrefixChars ++ (seg.toList ++ '/' :: rest.toList) := by
      simp [storePrefixChars, String.toList, String.data_append, hslash]
    have h1 : storePrefixChars.isPrefixOf
        ("/nix/store/" ++ seg ++ "/" ++ rest).toList = true := by
      rw [hl]
      exact isPrefixOf_append_self _ _
    rw [get_store_path_parent, if_pos h1, hl, List.drop_left,
      splitChar_sep_append '/' seg.toList rest.toList hs]
    simp only [hd, if_true]
    obtain ⟨segl⟩ := seg
    rfl
  · have hq' : ¬ (storePrefixChars.isPrefixOf q.toList = true) := by
      rw [hq]
      simp
    rw [get_store_path_parent, if_neg hq']

/-- Witness for C3 at the spec's own example path. -/
theorem C3_store_root_derivation_witness :
    get_store_path_parent "/nix/store/abcd1234-mylib/lib/libfoo.so"
      = some ("/nix/store/" ++ "abcd1234-mylib") ∧
    get_store_path_parent "/usr/lib/libGL.so" = none :=
  C3_store_root_derivation "/nix/store/abcd1234-mylib/lib/libfoo.so" "abcd1234-mylib"
    "lib/libfoo.so" "/usr/lib/libGL.so" (by decide) (by decide) (by decide) (by decide)

/-- Membership in the pattern-matched entries: an entry is visited iff it
is in the listing and matches at least one pattern. -/
lemma mem_matchedEntries {pats entries : List String} {e : String} :
    e ∈ matchedEntries pats entries ↔
      e ∈ entries ∧ ∃ pat, pat ∈ pats ∧ globMatch pat e = true := by
  simp only [matchedEntries, List.mem_flatMap, List.mem_filter]
  tauto

/-- Membership characterization for the contribution of one device entry. -/
lemma mem_devContrib {fs : FS} {e q : String} :
    q ∈ devContrib fs e ↔
      ((fs.fsExists (DEV_DIR ++ "/" ++ e) || fs.isSymlink (DEV_DIR ++ "/" ++ e)) = true ∧
        (q = DEV_DIR ++ "/" ++ e ∨
          (safe_resolve fs (DEV_DIR ++ "/" ++ e) = some q ∧ q ≠ DEV_DIR ++ "/" ++ e))) := by
  unfold devContrib
  by_cases h : (fs.fsExists (DEV_DIR ++ "/" ++ e) || fs.isSymlink (DEV_DIR ++ "/" ++ e)) = true
  · rw [if_pos h]
    cases hr : safe_resolve fs (DEV_DIR ++ "/" ++ e) with
    | none =>
      dsimp only
      constructor
      · intro hq
        rcases List.mem_cons.mp hq with h1 | h1
        · exact ⟨h, Or.inl h1⟩
        · exact absurd h1 (List.not_mem_nil q)
      · rintro ⟨-, h1 | ⟨h1, -⟩⟩
        · exact List.mem_cons.mpr (Or.inl h1)
        · exact Option.noConfusion h1
    | some r =>
      dsimp only
      by_cases hrp : r = DEV_DIR ++ "/" ++ e
      · rw [if_pos hrp]
        constructor
        · intro hq
          rcases List.mem_cons.mp hq with h1 | h1
          · exact ⟨h, Or.inl h1⟩
          · exact absurd h1 (List.not_mem_nil q)
        · rintro ⟨-, h1 | ⟨h1, hne⟩⟩
          · exact List.mem_cons.mpr (Or.inl h1)
          · have hq1 : q = r := (Option.some.inj h1).symm
            exact absurd (hq1.trans hrp) hne
      · rw [if_neg hrp]
        constructor
        · intro hq
          rcases List.mem_cons.mp hq with h1 | h1
          · exact ⟨h, Or.inl h1⟩
          · have hq1 : q = r := List.mem_singleton.mp h1
            refine ⟨h, Or.inr ⟨by rw [hq1], fun hc => hrp (hq1 ▸ hc)⟩⟩
        · rintro ⟨-, h1 | ⟨h1, -⟩⟩
          · exact List.mem_cons.mpr (Or.inl h1)
          · have hq1 : q = r := (Option.some.inj h1).symm
            exact List.mem_cons.mpr (Or.inr (List.mem_singleton.mpr hq1))
  · rw [if_neg h]
    constructor
    · intro hq
      exact absurd hq (List.not_mem_nil q)
    · rintro ⟨hc, -⟩
      exact absurd hc h

/-- Membership characterization for step 1 (device nodes). -/
lemma mem_step1 {fs : FS} {pats : List String} {q : String} :
    q ∈ step1_list fs pats ↔
      (fs.isDir DEV_DIR = true ∧ ∃ e, e ∈ fs.devEntries ∧
        (∃ pat, pat ∈ pats ∧ globMatch pat e = true) ∧
        (fs.fsExists (DEV_DIR ++ "/" ++ e) || fs.isSymlink (DEV_DIR ++ "/" ++ e)) = true ∧
        (q = DEV_DIR ++ "/" ++ e ∨
          (safe_resolve fs (DEV_DIR ++ "/" ++ e) = some q ∧ q ≠ DEV_DIR ++ "/" ++ e))) := by
  unfold step1_list
  by_cases hd : fs.isDir DEV_DIR = true
  · rw [if_pos hd]
    simp only [hd, true_and, List.mem_flatMap, mem_matchedEntries, mem_devContrib]
    exact exists_congr fun e => by tauto
  · rw [if_neg hd]
    constructor
    · intro hq
      exact absurd hq (List.not_mem_nil q)
    · rintro ⟨hc, -⟩
      exact absurd hc hd

/-- Membership characterization for the contribution of one library entry. -/
lemma mem_libContrib {fs : FS} {e q : String} :
    q ∈ libContrib fs e ↔
      (fs.isSymlink (OPENGL_DIR ++ "/lib/" ++ e) = true ∧
        ∃ t, safe_resolve fs (OPENGL_DIR ++ "/lib/" ++ e) = some t ∧
          storePrefixChars.isPrefixOf t.toList = true ∧
          get_store_path_parent t = some q) := by
  unfold libContrib
  by_cases h : fs.isSymlink (OPENGL_DIR ++ "/lib/" ++ e) = true
  · rw [if_pos h]
    cases hr : safe_resolve fs (OPENGL_DIR ++ "/lib/" ++ e) with
    | none =>
      dsimp only
      constructor
      · intro hq
        exact absurd hq (List.not_mem_nil q)
      · rintro ⟨-, t, h1, -⟩
        exact Option.noConfusion h1
    | some t =>
      dsimp only
      by_cases hpre : storePrefixChars.isPrefixOf t.toList = true
      · rw [if_pos hpre]
        constructor
        · intro hq
          cases hsp : get_store_path_parent t with
          | none =>
            rw [hsp] at hq
            exact absurd hq (List.not_mem_nil q)
          | some sp =>
            rw [hsp] at hq
            have hq1 : q = sp := List.mem_singleton.mp hq
            exact ⟨h, t, rfl, hpre, by rw [hsp, hq1]⟩
        · rintro ⟨-, t', h1, -, h3⟩
          have ht : t = t' := Option.some.inj h1
          rw [← ht] at h3
          rw [h3]
          exact List.mem_singleton.mpr rfl
      · rw [if_neg hpre]
        constructor
        · intro hq
          exact absurd hq (List.not_mem_nil q)
        · rintro ⟨-, t', h1, h2, -⟩
          have ht : t = t' := Option.some.inj h1
          rw [← ht] at h2
          exact absurd h2 hpre
  · rw [if_neg h]
    constructor
    · intro hq
      exact absurd hq (List.not_mem_nil q)
    · rintro ⟨hc, -⟩
      exact absurd hc h

/-- Membership characterization for step 3 (library scan). -/
lemma mem_step3 {fs : FS} {pats : List String} {q : String} :
    q ∈ step3_stores fs pats ↔
      ((driver_path_added fs && fs.isDir (OPENGL_DIR ++ "/lib")) = true ∧
        ∃ e, e ∈ fs.libEntries ∧ (∃ pat, pat ∈ pats ∧ globMatch pat e = true) ∧
          fs.isSymlink (OPENGL_DIR ++ "/lib/" ++ e) = true ∧
          ∃ t, safe_resolve fs (OPENGL_DIR ++ "/lib/" ++ e) = some t ∧
            storePrefixChars.isPrefixOf t.toList = true ∧
            get_store_path_parent t = some q) := by
  unfold step3_stores
  by_cases hg : (driver_path_added fs && fs.isDir (OPENGL_DIR ++ "/lib")) = true
  · rw [if_pos hg]
    simp only [hg, true_and, List.mem_flatMap, mem_matchedEntries, mem_libContrib]
    exact exists_congr fun e => by tauto
  · rw [if_neg hg]
    constructor
    · intro hq
      exact absurd hq (List.not_mem_nil q)
    · rintro ⟨hc, -⟩
      exact absurd hc hg

/-- Claim C9: device-node step: a path is produced by step 1 iff the
device root is a directory and some listed entry matches one of the fixed
device patterns, exists or is itself a symlink, and the path is either
that entry's path verbatim or its full resolution when that succeeds with
a different target; every such path is in the gather result.  A match
that is neither existing nor a symlink contributes nothing (right-to-left
direction of the characterization). -/
theorem C9_device_node_step (fs : FS) (q : String) :
    (q ∈ step1_list fs dev_patterns → q ∈ gather_potential_cuda_paths fs) ∧
    (q ∈ step1_list fs dev_patterns ↔
      (fs.isDir DEV_DIR = true ∧ ∃ e, e ∈ fs.devEntries ∧
        (∃ pat, pat ∈ dev_patterns ∧ globMatch pat e = true) ∧
        (fs.fsExists (DEV_DIR ++ "/" ++ e) || fs.isSymlink (DEV_DIR ++ "/" ++ e)) = true ∧
        (q = DEV_DIR ++ "/" ++ e ∨
          (safe_resolve fs (DEV_DIR ++ "/" ++ e) = some q ∧ q ≠ DEV_DIR ++ "/" ++ e)))) :=
  ⟨fun h => by
    unfold gather_potential_cuda_paths
    exact List.mem_append.mpr
      (Or.inl (List.mem_append.mpr (Or.inl (List.mem_append.mpr (Or.inl h))))),
   mem_step1⟩

/-- Witness for C9: in the end-to-end scenario filesystem, `/dev/nvidia0`
is produced by the device step and reaches the gather result. -/
theorem C9_device_node_step_witness :
    "/dev/nvidia0" ∈ gather_potential_cuda_paths fsEx :=
  (C9_device_node_step fsEx "/dev/nvidia0").1 (by decide)

/-- Claim C6: the gather operation is a total function of the filesystem
state (it is defined for every `FS`, so in the embedding it can never
raise); faults only shrink the result: resolution of a non-existent
non-symlink or of a path whose strict resolution fails yields `none`
instead of an error, absence of the device directory and of the driver
root empties the whole gather result, and absence of the `lib`
subdirectory empties the library scan. -/
theorem C6_gather_total_faults_degrade (fs : FS) (p : String) :
    (fs.isSymlink p = false → fs.fsExists p = false → safe_resolve fs p = none) ∧
    (fs.resolve p = none → safe_resolve fs p = none) ∧
    (fs.isDir DEV_DIR = false → driver_path_added fs = false →
      gather_potential_cuda_paths fs = []) ∧
    (fs.isDir (OPENGL_DIR ++ "/lib") = false → step3_stores fs lib_patterns = []) := by
  refine ⟨?_, ?_, ?_, ?_⟩
  · intro h1 h2
    simp [safe_resolve, h1, h2]
  · intro h1
    unfold safe_resolve
    split
    · rfl
    · exact h1
  · intro h1 h2
    have hsym : fs.isSymlink OPENGL_DIR = false := by
      unfold driver_path_added at h2
      cases hx : fs.isSymlink OPENGL_DIR
      · rfl
      · rw [hx] at h2
        simp at h2
    unfold gather_potential_cuda_paths step1_list step2_binds step2_stores step3_stores
    rw [h1, h2, hsym]
    simp
  · intro h1
    unfold step3_stores
    rw [h1]
    simp

/-- Witness for C6: on the empty filesystem, resolution yields no result
and gather returns the empty set. -/
theorem C6_gather_total_faults_degrade_witness :
    safe_resolve fsEmpty "/dev/nvidia0" = none ∧ gather_potential_cuda_paths fsEmpty = [] :=
  ⟨(C6_gather_total_faults_degrade fsEmpty "/dev/nvidia0").1 rfl rfl,
   (C6_gather_total_faults_degrade fsEmpty "/dev/nvidia0").2.2.1 rfl rfl⟩

/-- Claim C4: soundness of emission: every path in the final bind list
passed the `p.exists() or p.is_symlink()` filter evaluated on the
filesystem state used for emission, so each emitted path exists as a
file, directory or symlink at that moment. -/
theorem C4_emission_soundness (fs : FS) (p : String) (h : p ∈ valid_binds fs) :
    fs.fsExists p = true ∨ fs.isSymlink p = true := by
  unfold valid_binds at h
  have h2 := (List.mem_filter.mp h).2
  simp only [Bool.or_eq_true] at h2
  exact h2

/-- Witness for C4: the concrete scenario filesystem emits `/dev/nvidia0`,
which exists there. -/
theorem C4_emission_soundness_witness :
    "/dev/nvidia0" ∈ valid_binds fsEx ∧
      (fsEx.fsExists "/dev/nvidia0" = true ∨ fsEx.isSymlink "/dev/nvidia0" = true) :=
  ⟨by decide, C4_emission_soundness fsEx "/dev/nvidia0" (by decide)⟩

/-- Claim C5: the hook exits with status 0 on every run, and writes zero
bytes to standard output whenever classification is negative or the
gathered-and-filtered bind list is empty. -/
theorem C5_silent_success (cls : Bool) (fs : FS) :
    (hook_run cls fs).2 = 0 ∧
    (cls = false → (hook_run cls fs).1 = "") ∧
    (valid_binds fs = [] → (hook_run cls fs).1 = "") := by
  refine ⟨?_, ?_, ?_⟩
  · unfold hook_run
    split
    · split <;> rfl
    · rfl
  · intro h1
    subst h1
    rfl
  · intro h1
    unfold hook_run
    rw [h1]
    cases cls <;> simp

/-- Witness for C5: one concrete run with positive classification over the
empty filesystem writes nothing and exits 0. -/
theorem C5_silent_success_witness :
    (hook_run true fsEmpty).1 = "" ∧ (hook_run true fsEmpty).2 = 0 :=
  ⟨(C5_silent_success true fsEmpty).2.2 (by decide), (C5_silent_success true fsEmpty).1⟩

/-- Replacing the directory listings by listings with the same members
leaves step-1 membership unchanged (all other probes are untouched). -/
lemma step1_mem_update (fs : FS) (d l pats : List String) (q : String)
    (hd : ∀ x, x ∈ d ↔ x ∈ fs.devEntries) :
    (q ∈ step1_list { fs with devEntries := d, libEntries := l } pats ↔
      q ∈ step1_list fs pats) := by
  rw [mem_step1, mem_step1]
  constructor
  · rintro ⟨h1, e, he, hrest⟩
    exact ⟨h1, e, (hd e).mp he, hrest⟩
  · rintro ⟨h1, e, he, hrest⟩
    exact ⟨h1, e, (hd e).mpr he, hrest⟩

/-- Replacing the directory listings by listings with the same members
leaves step-3 membership unchanged. -/
lemma step3_mem_update (fs : FS) (d l pats : List String) (q : String)
    (hl : ∀ x, x ∈ l ↔ x ∈ fs.libEntries) :
    (q ∈ step3_stores { fs with devEntries := d, libEntries := l } pats ↔
      q ∈ step3_stores fs pats) := by
  rw [mem_step3, mem_step3]
  constructor
  · rintro ⟨h1, e, he, hrest⟩
    exact ⟨h1, e, (hl e).mp he, hrest⟩
  · rintro ⟨h1, e, he, hrest⟩
    exact ⟨h1, e, (hl e).mpr he, hrest⟩

/-- Gather membership is invariant under replacing the listings by
listings with the same members. -/
lemma gather_mem_update (fs : FS) (d l : List String) (q : String)
    (hd : ∀ x, x ∈ d ↔ x ∈ fs.devEntries) (hl : ∀ x, x ∈ l ↔ x ∈ fs.libEntries) :
    (q ∈ gather_potential_cuda_paths { fs with devEntries := d, libEntries := l } ↔
      q ∈ gather_potential_cuda_paths fs) := by
  unfold gather_potential_cuda_paths
  have h2b : step2_binds { fs with devEntries := d, libEntries := l } = step2_binds fs := rfl
  have h2s : step2_stores { fs with devEntries := d, libEntries := l } = step2_stores fs := rfl
  rw [h2b, h2s]
  simp only [List.mem_append]
  have h1 := step1_mem_update fs d l dev_patterns q hd
  have h3 := step3_mem_update fs d l lib_patterns q hl
  tauto

/-- The final bind list is invariant under replacing the listings by
listings with the same members: the deduplicated sets are equal, so both
sort to the same list, and the final filter only consults the unchanged
probes. -/
lemma valid_binds_update (fs : FS) (d l : List String)
    (hd : ∀ x, x ∈ d ↔ x ∈ fs.devEntries) (hl : ∀ x, x ∈ l ↔ x ∈ fs.libEntries) :
    valid_binds { fs with devEntries := d, libEntries := l } = valid_binds fs := by
  unfold valid_binds
  have hperm :
      List.Perm (gather_potential_cuda_paths { fs with devEntries := d, libEntries := l }).dedup
        (gather_potential_cuda_paths fs).dedup :=
    (List.perm_ext_iff_of_nodup (List.nodup_dedup _) (List.nodup_dedup _)).mpr fun a => by
      rw [List.mem_dedup, List.mem_dedup]
      exact gather_mem_update fs d l a hd hl
  have hsort :
      ((gather_potential_cuda_paths { fs with devEntries := d, libEntries := l }).dedup.insertionSort
          (· ≤ ·)) =
        ((gather_potential_cuda_paths fs).dedup.insertionSort (· ≤ ·)) :=
    List.eq_of_perm_of_sorted
      (((List.perm_insertionSort _ _).trans hperm).trans (List.perm_insertionSort _ _).symm)
      (List.sorted_insertionSort _ _) (List.sorted_insertionSort _ _)
  rw [hsort]

/-- Step-1 membership only depends on the member set of the pattern list,
not on the order patterns are tried. -/
lemma step1_pattern_order (fs : FS) (pats pats' : List String)
    (hp : ∀ x, x ∈ pats ↔ x ∈ pats') (q : String) :
    q ∈ step1_list fs pats ↔ q ∈ step1_list fs pats' := by
  rw [mem_step1, mem_step1]
  constructor
  · rintro ⟨h1, e, he, ⟨pat, hpat, hg⟩, hrest⟩
    exact ⟨h1, e, he, ⟨pat, (hp pat).mp hpat, hg⟩, hrest⟩
  · rintro ⟨h1, e, he, ⟨pat, hpat, hg⟩, hrest⟩
    exact ⟨h1, e, he, ⟨pat, (hp pat).mpr hpat, hg⟩, hrest⟩

/-- Claim C7: the emitted bind list is sorted lexicographically by the
path string, contains each path exactly once, and, for a fixed
filesystem state, is independent of the order in which directory listings
are enumerated (same member sets give the very same output list) and of
the order in which patterns are matched. -/
theorem C7_sorted_unique_deterministic (fs : FS) (dev' lib' pats pats' : List String) :
    (valid_binds fs).Sorted (· ≤ ·) ∧
    (valid_binds fs).Nodup ∧
    ((∀ x, x ∈ dev' ↔ x ∈ fs.devEntries) → (∀ x, x ∈ lib' ↔ x ∈ fs.libEntries) →
      valid_binds { fs with devEntries := dev', libEntries := lib' } = valid_binds fs) ∧
    ((∀ x, x ∈ pats ↔ x ∈ pats') →
      ∀ q, q ∈ step1_list fs pats ↔ q ∈ step1_list fs pats') := by
  refine ⟨?_, ?_, ?_, ?_⟩
  · exact (List.sorted_insertionSort _ _).filter _
  · exact (((List.perm_insertionSort _ _).nodup_iff).mpr (List.nodup_dedup _)).filter _
  · exact fun hd hl => valid_binds_update fs dev' lib' hd hl
  · exact fun hp q => step1_pattern_order fs pats pats' hp q

/-- Witness for C7: a permuted-with-duplicates device listing and a
doubled pattern list give the same results on the scenario filesystem. -/
theorem C7_sorted_unique_deterministic_witness :
    valid_binds { fsEx with devEntries := ["nvidia0", "nvidia0"], libEntries := [] } =
        valid_binds fsEx ∧
      ("/dev/nvidia0" ∈ step1_list fsEx ["nvidia*"] ↔
        "/dev/nvidia0" ∈ step1_list fsEx ["nvidia*", "nvidia*"]) :=
  ⟨(C7_sorted_unique_deterministic fsEx ["nvidia0", "nvidia0"] [] ["nvidia*"]
        ["nvidia*", "nvidia*"]).2.2.1
      (fun x => by simp [fsEx]) (fun x => Iff.rfl),
   (C7_sorted_unique_deterministic fsEx ["nvidia0", "nvidia0"] [] ["nvidia*"]
        ["nvidia*", "nvidia*"]).2.2.2
      (fun x => by simp) "/dev/nvidia0"⟩
